import Mathlib

/-!
Shallow embedding of the animation core of `VUMeter` (src/src/vumeter.js):
the range mapper, ballistics filter, peak tracker, auto-range controller and
clip-threshold monitor, together with theorems settling the specification
claims about them.

Numeric values are modelled as rationals.  The host math library's `Math.exp`
is treated as an abstract parameter `E : ℚ → ℚ` of the frame step, since the
code only ever composes its result arithmetically.  Rendering (SVG building)
is modelled by a single counter `rebuildCount` that `_rebuildScale()`
increments, plus the `lastRebuiltDbMin`/`lastRebuiltDbMax` bookkeeping the
code keeps alongside it.
-/

namespace VUMeter

/-- The numeric configuration of a `VUMeter` instance: the fields of
`VUMeter.DEFAULTS` that drive the animation core (rendering-only fields such
as `width`, `label`, `brand`, `peakColor`, `scalePreset` and the callback
slots are not part of the numeric model). -/
structure Options where
  dbMin : ℚ
  dbMax : ℚ
  noiseFloor : ℚ
  ballistics : Bool
  attackTime : ℚ
  releaseTime : ℚ
  clipThreshold : ℚ
  autoRange : Bool
  autoRangeWindow : ℚ
  autoRangeMargin : ℚ
  showPeak : Bool
  peakAttackTime : ℚ
  peakHoldTime : ℚ
  peakDecayTime : ℚ
  deriving Repr, DecidableEq

/-- The numeric parts of `VUMeter.DEFAULTS`. -/
def defaultOptions : Options where
  dbMin := -20
  dbMax := 3
  noiseFloor := -20
  ballistics := true
  attackTime := 300
  releaseTime := 300
  clipThreshold := 0
  autoRange := false
  autoRangeWindow := 30
  autoRangeMargin := 2
  showPeak := false
  peakAttackTime := 50
  peakHoldTime := 2000
  peakDecayTime := 1500

/-- A partial options object, as passed to `setOptions` and merged with
`Object.assign`: `none` means the key is absent. -/
structure OptionsPatch where
  dbMin : Option ℚ := none
  dbMax : Option ℚ := none
  noiseFloor : Option ℚ := none
  ballistics : Option Bool := none
  attackTime : Option ℚ := none
  releaseTime : Option ℚ := none
  clipThreshold : Option ℚ := none
  autoRange : Option Bool := none
  autoRangeWindow : Option ℚ := none
  autoRangeMargin : Option ℚ := none
  showPeak : Option Bool := none
  peakAttackTime : Option ℚ := none
  peakHoldTime : Option ℚ := none
  peakDecayTime : Option ℚ := none
  deriving Repr, DecidableEq

/-- `Object.assign(this._options, opts)`: a present key overwrites, an absent
key leaves the old value. -/
def applyPatch (o : Options) (p : OptionsPatch) : Options where
  dbMin := p.dbMin.getD o.dbMin
  dbMax := p.dbMax.getD o.dbMax
  noiseFloor := p.noiseFloor.getD o.noiseFloor
  ballistics := p.ballistics.getD o.ballistics
  attackTime := p.attackTime.getD o.attackTime
  releaseTime := p.releaseTime.getD o.releaseTime
  clipThreshold := p.clipThreshold.getD o.clipThreshold
  autoRange := p.autoRange.getD o.autoRange
  autoRangeWindow := p.autoRangeWindow.getD o.autoRangeWindow
  autoRangeMargin := p.autoRangeMargin.getD o.autoRangeMargin
  showPeak := p.showPeak.getD o.showPeak
  peakAttackTime := p.peakAttackTime.getD o.peakAttackTime
  peakHoldTime := p.peakHoldTime.getD o.peakHoldTime
  peakDecayTime := p.peakDecayTime.getD o.peakDecayTime

/-- One auto-range history entry `{ db, t }` pushed by `setValue`. -/
structure Sample where
  db : ℚ
  t : ℚ
  deriving Repr, DecidableEq

/-- The mutable state of one meter instance (the `this._*` fields of the
animation core). -/
structure MeterState where
  opts : Options
  initDbMin : ℚ
  initDbMax : ℚ
  targetDb : ℚ
  currentDb : ℚ
  clipping : Bool
  rangeSamples : List Sample
  autoRangeTargetMin : ℚ
  autoRangeTargetMax : ℚ
  lastRebuiltDbMin : ℚ
  lastRebuiltDbMax : ℚ
  peakDb : ℚ
  peakVisualDb : ℚ
  peakHoldUntil : ℚ
  peakDecaying : Bool
  rebuildCount : ℕ
  deriving Repr, DecidableEq

/-- The state set up by the constructor (its field initialisers; the DOM
build and animation start are rendering concerns).  `rebuildCount` starts at
zero: the initial `_build()` lays out the scale once. -/
def mkState (o : Options) : MeterState where
  opts := o
  initDbMin := o.dbMin
  initDbMax := o.dbMax
  targetDb := o.dbMin
  currentDb := o.dbMin
  clipping := false
  rangeSamples := []
  autoRangeTargetMin := o.dbMin
  autoRangeTargetMax := o.dbMax
  lastRebuiltDbMin := o.dbMin
  lastRebuiltDbMax := o.dbMax
  peakDb := o.dbMin
  peakVisualDb := o.dbMin
  peakHoldUntil := 0
  peakDecaying := false
  rebuildCount := 0

/-- The unclamped noise-floor remapping of `setValue`:
`db <= noiseFloor` pins to `dbMin`, otherwise linear interpolation from
`[noiseFloor, dbMax]` onto `[dbMin, dbMax]`. -/
def mapRaw (o : Options) (db : ℚ) : ℚ :=
  if db ≤ o.noiseFloor then o.dbMin
  else o.dbMin + (db - o.noiseFloor) / (o.dbMax - o.noiseFloor) * (o.dbMax - o.dbMin)

/-- The value `setValue` stores in `_targetDb`: the remapped input clamped to
`[dbMin, dbMax + 1]`. -/
def mapTarget (o : Options) (db : ℚ) : ℚ :=
  max o.dbMin (min (o.dbMax + 1) (mapRaw o db))

/-- `setRange(dbMin, dbMax)`: store the new bounds, clamp `_targetDb` and
`_currentDb` into them, rebuild the scale and record the rebuilt bounds.
No validation is performed and the peak tracker is untouched. -/
def setRange (s : MeterState) (dbMin dbMax : ℚ) : MeterState :=
  { s with
    opts := { s.opts with dbMin := dbMin, dbMax := dbMax }
    targetDb := max dbMin (min dbMax s.targetDb)
    currentDb := max dbMin (min dbMax s.currentDb)
    rebuildCount := s.rebuildCount + 1
    lastRebuiltDbMin := dbMin
    lastRebuiltDbMax := dbMax }

/-- `resetRange()`: clear the sample history, restore the constructor bounds
and contraction targets, rebuild the scale.  The peak tracker is untouched. -/
def resetRange (s : MeterState) : MeterState :=
  { s with
    rangeSamples := []
    autoRangeTargetMin := s.initDbMin
    autoRangeTargetMax := s.initDbMax
    opts := { s.opts with dbMin := s.initDbMin, dbMax := s.initDbMax }
    rebuildCount := s.rebuildCount + 1
    lastRebuiltDbMin := s.initDbMin
    lastRebuiltDbMax := s.initDbMax }

/-- `setOptions(opts)`: merge the patch into the options; rebuild the scale
when a scale-affecting key (here `clipThreshold`; `scalePreset`, `label` and
`brand` are rendering-only and not modelled) is present.  No validation. -/
def setOptions (s : MeterState) (p : OptionsPatch) : MeterState :=
  let s' := { s with opts := applyPatch s.opts p }
  if p.clipThreshold.isSome then { s' with rebuildCount := s'.rebuildCount + 1 } else s'

/-- `Math.min(...)` over a sample list (the list is nonempty wherever the
code evaluates it). -/
def listMin : List ℚ → ℚ
  | [] => 0
  | [x] => x
  | x :: y :: xs => min x (listMin (y :: xs))

/-- `Math.max(...)` over a sample list. -/
def listMax : List ℚ → ℚ
  | [] => 0
  | [x] => x
  | x :: y :: xs => max x (listMax (y :: xs))

/-- The sample history after `setValue(db)` at time `now`: push `{db, now}`,
then drop entries older than `now - autoRangeWindow * 1000`. -/
def newSamples (s : MeterState) (db now : ℚ) : List Sample :=
  (s.rangeSamples ++ [Sample.mk db now]).filter
    fun x => now - s.opts.autoRangeWindow * 1000 ≤ x.t

/-- The desired lower bound `observedMin - autoRangeMargin` computed by
`setValue` from the pruned window. -/
def desiredMin (s : MeterState) (db now : ℚ) : ℚ :=
  listMin ((newSamples s db now).map Sample.db) - s.opts.autoRangeMargin

/-- The desired upper bound `observedMax + autoRangeMargin` computed by
`setValue` from the pruned window. -/
def desiredMax (s : MeterState) (db now : ℚ) : ℚ :=
  listMax ((newSamples s db now).map Sample.db) + s.opts.autoRangeMargin

/-- The auto-range block at the top of `setValue`: record the sample, store
the contraction targets, and expand the bounds immediately (via `setRange`)
when a desired bound lies outside the current ones. -/
def autoRangePhase (s : MeterState) (db now : ℚ) : MeterState :=
  if s.opts.autoRange then
    let samples := newSamples s db now
    let s' := { s with rangeSamples := samples }
    if 0 < samples.length then
      let nMin := desiredMin s db now
      let nMax := desiredMax s db now
      let s'' := { s' with autoRangeTargetMin := nMin, autoRangeTargetMax := nMax }
      if nMin < s.opts.dbMin ∨ nMax > s.opts.dbMax then
        setRange s'' (if nMin < s.opts.dbMin then nMin else s.opts.dbMin)
          (if nMax > s.opts.dbMax then nMax else s.opts.dbMax)
      else s''
    else s'
  else s

/-- `setValue(db)` at wall-clock time `now`: the auto-range block, then the
noise-floor mapping into `_targetDb` using the (possibly just expanded)
options. -/
def setValue (s : MeterState) (db now : ℚ) : MeterState :=
  let s1 := autoRangePhase s db now
  { s1 with targetDb := mapTarget s1.opts db }

/-- `_updateClipState(db)`: recompute `clipping = db > clipThreshold`; on a
change store it and fire `onClip` (second component) or `onClipRelease`
(third component); on no change fire nothing. -/
def clipStep (c : Bool) (db thr : ℚ) : Bool × Bool × Bool :=
  let clipping := decide (db > thr)
  if clipping = c then (c, false, false)
  else (clipping, clipping, !clipping)

/-- Run `_updateClipState` over a sequence of per-frame evaluations
`(value, threshold)`, returning the final flag and the total number of
`onClip` and `onClipRelease` firings. -/
def clipRun (c : Bool) : List (ℚ × ℚ) → Bool × ℕ × ℕ
  | [] => (c, 0, 0)
  | e :: rest =>
    let step := clipStep c e.1 e.2
    let tail := clipRun step.1 rest
    (tail.1, (if step.2.1 then 1 else 0) + tail.2.1, (if step.2.2 then 1 else 0) + tail.2.2)

/-- Modelled from the spec: the number of rising edges of a boolean frame
sequence, given the flag before the first frame. -/
def specRisingEdges (c : Bool) : List Bool → ℕ
  | [] => 0
  | p :: rest => (if p && !c then 1 else 0) + specRisingEdges p rest

/-- Modelled from the spec: the number of falling edges of a boolean frame
sequence, given the flag before the first frame. -/
def specFallingEdges (c : Bool) : List Bool → ℕ
  | [] => 0
  | p :: rest => (if !p && c then 1 else 0) + specFallingEdges p rest

/-- The main-needle ballistics step of `_animate` (lines guarded by
`this._options.ballistics`): deadband snap within 0.005, otherwise
exponential approach with `tau` picked by the sign of the difference;
with ballistics disabled the current value jumps to the target. -/
def ballisticsStep (E : ℚ → ℚ) (o : Options) (current target dt : ℚ) : ℚ :=
  if o.ballistics then
    let diff := target - current
    if |diff| < 5 / 1000 then target
    else current + diff * (1 - E (-dt / (if diff > 0 then o.attackTime else o.releaseTime)))
  else target

/-- The decayed peak visual value computed while `_peakDecaying`:
one exponential step toward `dbMin` with time constant `peakDecayTime`. -/
def decayedVisual (E : ℚ → ℚ) (s : MeterState) (dt : ℚ) : ℚ :=
  s.peakVisualDb + (s.opts.dbMin - s.peakVisualDb) * (1 - E (-dt / s.opts.peakDecayTime))

/-- Peak capture: a target above the held peak is captured immediately, the
hold timer restarts and any decay in progress is cancelled. -/
def peakCapture (s : MeterState) (now : ℚ) : MeterState :=
  if s.targetDb > s.peakDb then
    { s with peakDb := s.targetDb, peakHoldUntil := now + s.opts.peakHoldTime,
             peakDecaying := false }
  else s

/-- Peak hold expiry: once the hold deadline passes (and only when one is
armed), decay mode starts. -/
def peakExpire (s : MeterState) (now : ℚ) : MeterState :=
  if ¬s.peakDecaying ∧ s.peakHoldUntil > 0 ∧ now ≥ s.peakHoldUntil then
    { s with peakDecaying := true }
  else s

/-- Peak visual movement: while decaying, approach `dbMin` with time
constant `peakDecayTime` and reset the whole tracker once within 0.05 of
`dbMin`; otherwise attack toward the held peak with `peakAttackTime`. -/
def peakMove (E : ℚ → ℚ) (s : MeterState) (dt : ℚ) : MeterState :=
  if s.peakDecaying then
    if decayedVisual E s dt ≤ s.opts.dbMin + 5 / 100 then
      { s with peakDb := s.opts.dbMin, peakVisualDb := s.opts.dbMin,
               peakDecaying := false, peakHoldUntil := 0 }
    else { s with peakVisualDb := decayedVisual E s dt }
  else
    { s with peakVisualDb :=
        s.peakVisualDb + (s.peakDb - s.peakVisualDb) * (1 - E (-dt / s.opts.peakAttackTime)) }

/-- The peak-hold block of `_animate` (run when `showPeak`): capture a new
peak, expire the hold period, then move the visual needle. -/
def peakStep (E : ℚ → ℚ) (s : MeterState) (dt now : ℚ) : MeterState :=
  peakMove E (peakExpire (peakCapture s now) now) dt

/-- The contracted lower bound of one frame: move `dbMin` up toward the
contraction target by at most `maxChange`, never past the target. -/
def contractMin (s : MeterState) (maxChange : ℚ) : ℚ :=
  if s.opts.dbMin < s.autoRangeTargetMin then
    min (s.opts.dbMin + maxChange) s.autoRangeTargetMin
  else s.opts.dbMin

/-- The contracted upper bound of one frame: move `dbMax` down toward the
contraction target by at most `maxChange`, never past the target. -/
def contractMax (s : MeterState) (maxChange : ℚ) : ℚ :=
  if s.opts.dbMax > s.autoRangeTargetMax then
    max (s.opts.dbMax - maxChange) s.autoRangeTargetMax
  else s.opts.dbMax

/-- The auto-range contraction block of `_animate`: move `dbMin` up and
`dbMax` down toward the contraction targets by at most `dt / 1000`, then
rebuild the scale once either bound has drifted one unit or more from the
last rebuild. -/
def contractionPhase (s : MeterState) (dt : ℚ) : MeterState :=
  if s.opts.autoRange then
    let newMin := contractMin s (dt / 1000)
    let newMax := contractMax s (dt / 1000)
    let s' := { s with opts := { s.opts with dbMin := newMin, dbMax := newMax } }
    if 1 ≤ |newMin - s.lastRebuiltDbMin| ∨ 1 ≤ |newMax - s.lastRebuiltDbMax| then
      { s' with rebuildCount := s'.rebuildCount + 1,
                lastRebuiltDbMin := newMin, lastRebuiltDbMax := newMax }
    else s'
  else s

/-- One `_animate` frame: `dtRaw` is `timestamp - lastTime` (capped at
100 ms inside), `now` is `Date.now()`.  Returns the new state together with
the `onClip` / `onClipRelease` firings of this frame. -/
def animate (E : ℚ → ℚ) (s : MeterState) (dtRaw now : ℚ) : MeterState × Bool × Bool :=
  let dt := min dtRaw 100
  let s1 := contractionPhase s dt
  let s2 := { s1 with currentDb := ballisticsStep E s1.opts s1.currentDb s1.targetDb dt }
  let s3 := { s2 with currentDb := max s2.opts.dbMin (min (s2.opts.dbMax + 1 / 2) s2.currentDb) }
  let step := clipStep s3.clipping s3.currentDb s3.opts.clipThreshold
  let s4 := { s3 with clipping := step.1 }
  let s5 := if s4.opts.showPeak then peakStep E s4 dt now else s4
  (s5, step.2.1, step.2.2)

/-- The concrete configuration of the spec's worked example:
`{displayMin: -20, displayMax: 3, noiseFloor: -20}` over the defaults. -/
def exampleOptions : Options :=
  { defaultOptions with dbMin := -20, dbMax := 3, noiseFloor := -20 }

end VUMeter

namespace VUMeter

lemma mapTarget_pin (o : Options) (db : ℚ) (h : db ≤ o.noiseFloor) :
    mapTarget o db = o.dbMin := by
  rw [mapTarget, mapRaw, if_pos h]
  exact max_eq_left (min_le_right _ _)

lemma mapTarget_interp (o : Options) (db : ℚ) (h : o.noiseFloor < db) :
    mapTarget o db =
      max o.dbMin (min (o.dbMax + 1)
        (o.dbMin + (db - o.noiseFloor) / (o.dbMax - o.noiseFloor) * (o.dbMax - o.dbMin))) := by
  rw [mapTarget, mapRaw, if_neg (not_le.mpr h)]

lemma setValue_opts (s : MeterState) (db now : ℚ) :
    (setValue s db now).opts = (autoRangePhase s db now).opts := rfl

lemma setValue_targetDb (s : MeterState) (db now : ℚ) :
    (setValue s db now).targetDb = mapTarget (autoRangePhase s db now).opts db := rfl

lemma autoRangePhase_noiseFloor (s : MeterState) (db now : ℚ) :
    (autoRangePhase s db now).opts.noiseFloor = s.opts.noiseFloor := by
  rw [autoRangePhase]
  split
  · show (if 0 < (newSamples s db now).length then _ else _ : MeterState).opts.noiseFloor = _
    split
    · show (if desiredMin s db now < s.opts.dbMin ∨ desiredMax s db now > s.opts.dbMax
          then _ else _ : MeterState).opts.noiseFloor = _
      split
      · rfl
      · rfl
    · rfl
  · rfl

/-- C1: with `displayMax > noiseFloor` configured, `setValue(rawDb)` stores
`displayMin` as the target whenever `rawDb <= noiseFloor`, and otherwise the
linear interpolation
`displayMin + (rawDb - noiseFloor)/(displayMax - noiseFloor) * (displayMax - displayMin)`
clamped to `[displayMin, displayMax + 1]` — where the bounds are the ones in
effect at mapping time (after any auto-range expansion in the same call,
which is how the code reads its options). -/
theorem setValue_noise_floor_map_clamped (s : MeterState) (db now : ℚ)
    (h : s.opts.noiseFloor < s.opts.dbMax) :
    (db ≤ s.opts.noiseFloor →
      (setValue s db now).targetDb = (setValue s db now).opts.dbMin) ∧
    (s.opts.noiseFloor < db →
      (setValue s db now).targetDb =
        max (setValue s db now).opts.dbMin
          (min ((setValue s db now).opts.dbMax + 1)
            ((setValue s db now).opts.dbMin +
              (db - (setValue s db now).opts.noiseFloor) /
                ((setValue s db now).opts.dbMax - (setValue s db now).opts.noiseFloor) *
                ((setValue s db now).opts.dbMax - (setValue s db now).opts.dbMin)))) := by
  constructor
  · intro hle
    rw [setValue_targetDb, setValue_opts]
    exact mapTarget_pin _ _ (by rw [autoRangePhase_noiseFloor]; exact hle)
  · intro hgt
    rw [setValue_targetDb, setValue_opts]
    exact mapTarget_interp _ _ (by rw [autoRangePhase_noiseFloor]; exact hgt)

theorem setValue_noise_floor_map_clamped_witness :
    ((mkState defaultOptions).opts.noiseFloor < (mkState defaultOptions).opts.dbMax) ∧
    (((-60 : ℚ) ≤ (mkState defaultOptions).opts.noiseFloor →
      (setValue (mkState defaultOptions) (-60) 0).targetDb =
        (setValue (mkState defaultOptions) (-60) 0).opts.dbMin) ∧
    ((mkState defaultOptions).opts.noiseFloor < (-60 : ℚ) →
      (setValue (mkState defaultOptions) (-60) 0).targetDb =
        max (setValue (mkState defaultOptions) (-60) 0).opts.dbMin
          (min ((setValue (mkState defaultOptions) (-60) 0).opts.dbMax + 1)
            ((setValue (mkState defaultOptions) (-60) 0).opts.dbMin +
              ((-60 : ℚ) - (setValue (mkState defaultOptions) (-60) 0).opts.noiseFloor) /
                ((setValue (mkState defaultOptions) (-60) 0).opts.dbMax -
                  (setValue (mkState defaultOptions) (-60) 0).opts.noiseFloor) *
                ((setValue (mkState defaultOptions) (-60) 0).opts.dbMax -
                  (setValue (mkState defaultOptions) (-60) 0).opts.dbMin))))) :=
  ⟨by norm_num [mkState, defaultOptions],
   setValue_noise_floor_map_clamped (mkState defaultOptions) (-60) 0
     (by norm_num [mkState, defaultOptions])⟩

/-- C2 counterexample: `setRange` accepts `displayMax <= displayMin` (here
`setRange(-5, -10)` on a default instance): no error is raised — the call is
an ordinary state update — and the configuration does not stay unchanged, it
becomes exactly the invalid one. -/
theorem setRange_accepts_inverted_bounds :
    (setRange (mkState defaultOptions) (-5) (-10)).opts.dbMin = -5 ∧
    (setRange (mkState defaultOptions) (-5) (-10)).opts.dbMax = -10 ∧
    (mkState defaultOptions).opts.dbMin = -20 ∧
    (mkState defaultOptions).opts.dbMax = 3 ∧
    ((-10 : ℚ) ≤ -5) := by
  refine ⟨rfl, rfl, rfl, rfl, by norm_num⟩

/-- C2 amended: construction, `setRange` and `setOptions` perform no
validation at all — any requested configuration, including
`displayMax <= displayMin`, `displayMax = noiseFloor` or any other bounds, is
applied unconditionally and synchronously, and no error is ever raised (the
operations are total state updates). -/
theorem configuration_applied_without_validation (s : MeterState) (a b : ℚ)
    (p : OptionsPatch) (o : Options) :
    (setRange s a b).opts.dbMin = a ∧
    (setRange s a b).opts.dbMax = b ∧
    (setOptions s p).opts = applyPatch s.opts p ∧
    (mkState o).opts = o := by
  refine ⟨rfl, rfl, ?_, rfl⟩
  rw [setOptions]
  split
  · rfl
  · rfl

/-- C9 counterexample: with `{displayMin: -20, displayMax: 3,
noiseFloor: -20}` the map is the identity above the noise floor, so
`setValue(-8.5)` stores target `-8.5`, which is not approximately `-10.07`
(it is off by `1.57`). -/
theorem setValue_example_not_minus_ten_point_07 :
    (setValue (mkState exampleOptions) (-17/2) 0).targetDb = -17/2 ∧
    ¬ |(setValue (mkState exampleOptions) (-17/2) 0).targetDb - (-1007/100)| ≤ 3/2 := by
  have h : (setValue (mkState exampleOptions) (-17/2) 0).targetDb = -17/2 := by
    norm_num [setValue, autoRangePhase, mkState, exampleOptions, defaultOptions,
      mapTarget, mapRaw]
  refine ⟨h, ?_⟩
  rw [h]
  norm_num [abs_of_pos]

/-- C9 amended: with configuration `{displayMin: -20, displayMax: 3,
noiseFloor: -20}`, `setValue(-60)` sets the target value to `-20`, and
`setValue(-8.5)` sets it to exactly `-8.5` (the interpolation is the
identity here because `noiseFloor = displayMin`). -/
theorem setValue_example_values :
    (setValue (mkState exampleOptions) (-60) 0).targetDb = -20 ∧
    (setValue (mkState exampleOptions) (-17/2) 0).targetDb = -17/2 := by
  constructor
  · norm_num [setValue, autoRangePhase, mkState, exampleOptions, defaultOptions,
      mapTarget, mapRaw]
  · norm_num [setValue, autoRangePhase, mkState, exampleOptions, defaultOptions,
      mapTarget, mapRaw]

lemma autoRangePhase_of_disabled (s : MeterState) (db now : ℚ)
    (h : s.opts.autoRange = false) : autoRangePhase s db now = s := by
  rw [autoRangePhase, h]
  rfl

/-- C10: with auto-range disabled, `setValue(db)` writes only `_targetDb`:
the options, current value, clip flag, sample history, contraction targets,
rebuild bookkeeping and the whole peak tracker state are untouched. -/
theorem setValue_writes_only_target (s : MeterState) (db now : ℚ)
    (h : s.opts.autoRange = false) :
    (setValue s db now).opts = s.opts ∧
    (setValue s db now).currentDb = s.currentDb ∧
    (setValue s db now).clipping = s.clipping ∧
    (setValue s db now).rangeSamples = s.rangeSamples ∧
    (setValue s db now).autoRangeTargetMin = s.autoRangeTargetMin ∧
    (setValue s db now).autoRangeTargetMax = s.autoRangeTargetMax ∧
    (setValue s db now).lastRebuiltDbMin = s.lastRebuiltDbMin ∧
    (setValue s db now).lastRebuiltDbMax = s.lastRebuiltDbMax ∧
    (setValue s db now).peakDb = s.peakDb ∧
    (setValue s db now).peakVisualDb = s.peakVisualDb ∧
    (setValue s db now).peakHoldUntil = s.peakHoldUntil ∧
    (setValue s db now).peakDecaying = s.peakDecaying ∧
    (setValue s db now).rebuildCount = s.rebuildCount ∧
    (setValue s db now).initDbMin = s.initDbMin ∧
    (setValue s db now).initDbMax = s.initDbMax := by
  have hp : autoRangePhase s db now = s := autoRangePhase_of_disabled s db now h
  rw [setValue]
  rw [hp]
  exact ⟨rfl, rfl, rfl, rfl, rfl, rfl, rfl, rfl, rfl, rfl, rfl, rfl, rfl, rfl, rfl⟩

theorem setValue_writes_only_target_witness :
    ((mkState defaultOptions).opts.autoRange = false) ∧
    ((setValue (mkState defaultOptions) 1 0).opts = (mkState defaultOptions).opts ∧
    (setValue (mkState defaultOptions) 1 0).currentDb = (mkState defaultOptions).currentDb ∧
    (setValue (mkState defaultOptions) 1 0).clipping = (mkState defaultOptions).clipping ∧
    (setValue (mkState defaultOptions) 1 0).rangeSamples = (mkState defaultOptions).rangeSamples ∧
    (setValue (mkState defaultOptions) 1 0).autoRangeTargetMin =
      (mkState defaultOptions).autoRangeTargetMin ∧
    (setValue (mkState defaultOptions) 1 0).autoRangeTargetMax =
      (mkState defaultOptions).autoRangeTargetMax ∧
    (setValue (mkState defaultOptions) 1 0).lastRebuiltDbMin =
      (mkState defaultOptions).lastRebuiltDbMin ∧
    (setValue (mkState defaultOptions) 1 0).lastRebuiltDbMax =
      (mkState defaultOptions).lastRebuiltDbMax ∧
    (setValue (mkState defaultOptions) 1 0).peakDb = (mkState defaultOptions).peakDb ∧
    (setValue (mkState defaultOptions) 1 0).peakVisualDb =
      (mkState defaultOptions).peakVisualDb ∧
    (setValue (mkState defaultOptions) 1 0).peakHoldUntil =
      (mkState defaultOptions).peakHoldUntil ∧
    (setValue (mkState defaultOptions) 1 0).peakDecaying =
      (mkState defaultOptions).peakDecaying ∧
    (setValue (mkState defaultOptions) 1 0).rebuildCount =
      (mkState defaultOptions).rebuildCount ∧
    (setValue (mkState defaultOptions) 1 0).initDbMin = (mkState defaultOptions).initDbMin ∧
    (setValue (mkState defaultOptions) 1 0).initDbMax = (mkState defaultOptions).initDbMax) :=
  ⟨rfl, setValue_writes_only_target (mkState defaultOptions) 1 0 rfl⟩

/-- C3: with ballistics enabled, one filter step snaps `current` to
`target` exactly when the difference is inside the 0.005 deadband, and
otherwise adds `diff * (1 - exp(-dt / tau))` with `tau = attackTime` when
the difference is positive and `releaseTime` otherwise. -/
theorem ballistics_deadband_and_exponential_approach (E : ℚ → ℚ) (o : Options)
    (c t dt : ℚ) (h : o.ballistics = true) :
    (|t - c| < 5 / 1000 → ballisticsStep E o c t dt = t) ∧
    (¬ |t - c| < 5 / 1000 →
      ballisticsStep E o c t dt =
        c + (t - c) * (1 - E (-dt / (if t - c > 0 then o.attackTime else o.releaseTime)))) := by
  constructor
  · intro hd
    rw [ballisticsStep, h]
    rw [if_pos rfl, if_pos hd]
  · intro hd
    rw [ballisticsStep, h]
    rw [if_pos rfl, if_neg hd]

theorem ballistics_deadband_and_exponential_approach_witness :
    (defaultOptions.ballistics = true) ∧
    ((|(1 : ℚ) - 0| < 5 / 1000 →
      ballisticsStep (fun x => x) defaultOptions 0 1 16 = 1) ∧
    (¬ |(1 : ℚ) - 0| < 5 / 1000 →
      ballisticsStep (fun x => x) defaultOptions 0 1 16 =
        0 + ((1 : ℚ) - 0) *
          (1 - (fun x => x)
            (-16 / (if (1 : ℚ) - 0 > 0 then defaultOptions.attackTime
                    else defaultOptions.releaseTime))))) :=
  ⟨rfl, ballistics_deadband_and_exponential_approach (fun x => x) defaultOptions 0 1 16 rfl⟩

lemma clipStep_eq (c : Bool) (db thr : ℚ) :
    clipStep c db thr =
      (decide (db > thr), decide (db > thr) && !c, !(decide (db > thr)) && c) := by
  rw [clipStep]
  by_cases h : decide (db > thr) = c
  · rw [if_pos h, h]
    cases c <;> rfl
  · rw [if_neg h]
    cases c <;> cases hd : decide (db > thr) <;> simp_all

/-- C6: the clip monitor is a pure edge detector.  One evaluation fires the
enter callback exactly on a rising edge of `currentValue > clipThreshold`
and the exit callback exactly on a falling edge (so nothing fires while the
predicate is unchanged), and over any sequence of frame evaluations the
total number of enter and exit firings equals the number of rising and
falling edges of the predicate sequence. -/
theorem clip_callbacks_fire_once_per_edge (c : Bool) (evs : List (ℚ × ℚ)) (db thr : ℚ) :
    clipStep c db thr =
      (decide (db > thr), decide (db > thr) && !c, !(decide (db > thr)) && c) ∧
    (clipRun c evs).2.1 = specRisingEdges c (evs.map fun e => decide (e.1 > e.2)) ∧
    (clipRun c evs).2.2 = specFallingEdges c (evs.map fun e => decide (e.1 > e.2)) := by
  refine ⟨clipStep_eq c db thr, ?_⟩
  induction evs generalizing c with
  | nil => exact ⟨rfl, rfl⟩
  | cons e rest ih =>
    rw [clipRun, List.map_cons, specRisingEdges, specFallingEdges, clipStep_eq]
    have h1 := (ih (decide (e.1 > e.2))).1
    have h2 := (ih (decide (e.1 > e.2))).2
    constructor
    · simp only []
      rw [h1]
    · simp only []
      rw [h2]

lemma newSamples_length_pos (s : MeterState) (db now : ℚ)
    (hW : 0 ≤ s.opts.autoRangeWindow) : 0 < (newSamples s db now).length := by
  have hmem : Sample.mk db now ∈ newSamples s db now := by
    rw [newSamples]
    apply List.mem_filter.mpr
    refine ⟨List.mem_append_right _ (List.mem_singleton_self _), ?_⟩
    simp only [decide_eq_true_eq]
    have : (0 : ℚ) ≤ s.opts.autoRangeWindow * 1000 := by positivity
    linarith
  exact List.length_pos_of_mem hmem

lemma autoRangePhase_expanded_bounds (s : MeterState) (db now : ℚ)
    (hA : s.opts.autoRange = true) (hlen : 0 < (newSamples s db now).length)
    (hor : desiredMin s db now < s.opts.dbMin ∨ desiredMax s db now > s.opts.dbMax) :
    (autoRangePhase s db now).opts.dbMin =
      (if desiredMin s db now < s.opts.dbMin then desiredMin s db now else s.opts.dbMin) ∧
    (autoRangePhase s db now).opts.dbMax =
      (if desiredMax s db now > s.opts.dbMax then desiredMax s db now else s.opts.dbMax) := by
  rw [autoRangePhase, hA]
  rw [if_pos rfl]
  show ((if 0 < (newSamples s db now).length then _ else _ : MeterState).opts.dbMin = _) ∧
    ((if 0 < (newSamples s db now).length then _ else _ : MeterState).opts.dbMax = _)
  rw [if_pos hlen]
  show ((if desiredMin s db now < s.opts.dbMin ∨ desiredMax s db now > s.opts.dbMax
      then _ else _ : MeterState).opts.dbMin = _) ∧
    ((if desiredMin s db now < s.opts.dbMin ∨ desiredMax s db now > s.opts.dbMax
      then _ else _ : MeterState).opts.dbMax = _)
  rw [if_pos hor]
  exact ⟨rfl, rfl⟩

/-- C4: with auto-range enabled (and a nonnegative window), a `setValue`
call whose desired bounds — windowed observed minimum minus the margin, or
observed maximum plus the margin — fall outside the current bounds expands
`dbMin` / `dbMax` to the desired bound within that same call. -/
theorem setValue_expands_bounds_same_call (s : MeterState) (db now : ℚ)
    (hA : s.opts.autoRange = true) (hW : 0 ≤ s.opts.autoRangeWindow) :
    (desiredMin s db now < s.opts.dbMin →
      (setValue s db now).opts.dbMin = desiredMin s db now) ∧
    (desiredMax s db now > s.opts.dbMax →
      (setValue s db now).opts.dbMax = desiredMax s db now) := by
  have hlen := newSamples_length_pos s db now hW
  constructor
  · intro hmin
    have h := (autoRangePhase_expanded_bounds s db now hA hlen (Or.inl hmin)).1
    rw [setValue_opts, h, if_pos hmin]
  · intro hmax
    have h := (autoRangePhase_expanded_bounds s db now hA hlen (Or.inr hmax)).2
    rw [setValue_opts, h, if_pos hmax]

/-- The default options with auto-range switched on, used to exercise the
auto-range theorems on a concrete instance. -/
def autoOptions : Options := { defaultOptions with autoRange := true }

theorem setValue_expands_bounds_same_call_witness :
    ((mkState autoOptions).opts.autoRange = true) ∧
    (0 ≤ (mkState autoOptions).opts.autoRangeWindow) ∧
    ((desiredMin (mkState autoOptions) (-50) 0 < (mkState autoOptions).opts.dbMin →
      (setValue (mkState autoOptions) (-50) 0).opts.dbMin =
        desiredMin (mkState autoOptions) (-50) 0) ∧
    (desiredMax (mkState autoOptions) (-50) 0 > (mkState autoOptions).opts.dbMax →
      (setValue (mkState autoOptions) (-50) 0).opts.dbMax =
        desiredMax (mkState autoOptions) (-50) 0)) :=
  ⟨rfl, by norm_num [mkState, autoOptions, defaultOptions],
   setValue_expands_bounds_same_call (mkState autoOptions) (-50) 0 rfl
     (by norm_num [mkState, autoOptions, defaultOptions])⟩

lemma peakCapture_opts (s : MeterState) (now : ℚ) : (peakCapture s now).opts = s.opts := by
  rw [peakCapture]
  split <;> rfl

lemma peakExpire_opts (s : MeterState) (now : ℚ) : (peakExpire s now).opts = s.opts := by
  rw [peakExpire]
  split <;> rfl

lemma peakMove_opts (E : ℚ → ℚ) (s : MeterState) (dt : ℚ) :
    (peakMove E s dt).opts = s.opts := by
  rw [peakMove]
  split
  · split <;> rfl
  · rfl

lemma peakStep_opts (E : ℚ → ℚ) (s : MeterState) (dt now : ℚ) :
    (peakStep E s dt now).opts = s.opts := by
  rw [peakStep, peakMove_opts, peakExpire_opts, peakCapture_opts]

lemma contractionPhase_opts (s : MeterState) (dt : ℚ) (hA : s.opts.autoRange = true) :
    (contractionPhase s dt).opts.dbMin = contractMin s (dt / 1000) ∧
    (contractionPhase s dt).opts.dbMax = contractMax s (dt / 1000) := by
  rw [contractionPhase, hA, if_pos rfl]
  show ((if 1 ≤ |contractMin s (dt / 1000) - s.lastRebuiltDbMin| ∨
        1 ≤ |contractMax s (dt / 1000) - s.lastRebuiltDbMax|
      then _ else _ : MeterState).opts.dbMin = _) ∧
    ((if 1 ≤ |contractMin s (dt / 1000) - s.lastRebuiltDbMin| ∨
        1 ≤ |contractMax s (dt / 1000) - s.lastRebuiltDbMax|
      then _ else _ : MeterState).opts.dbMax = _)
  split <;> exact ⟨rfl, rfl⟩

lemma animate_state_opts (E : ℚ → ℚ) (s : MeterState) (dtRaw now : ℚ) :
    (animate E s dtRaw now).1.opts = (contractionPhase s (min dtRaw 100)).opts := by
  rw [animate]
  show (if (contractionPhase s (min dtRaw 100)).opts.showPeak then _ else _ : MeterState).opts = _
  split
  · rw [peakStep_opts]
  · rfl

lemma contractMin_bounds (s : MeterState) (mc : ℚ) (hmc : 0 ≤ mc) :
    s.opts.dbMin ≤ contractMin s mc ∧
    contractMin s mc - s.opts.dbMin ≤ mc ∧
    contractMin s mc ≤ max s.opts.dbMin s.autoRangeTargetMin := by
  rw [contractMin]
  split
  · rename_i hlt
    refine ⟨le_min (by linarith) (le_of_lt hlt), ?_, ?_⟩
    · have := min_le_left (s.opts.dbMin + mc) s.autoRangeTargetMin
      linarith
    · exact le_trans (min_le_right _ _) (le_max_right _ _)
  · exact ⟨le_refl _, by linarith, le_max_left _ _⟩

lemma contractMax_bounds (s : MeterState) (mc : ℚ) (hmc : 0 ≤ mc) :
    contractMax s mc ≤ s.opts.dbMax ∧
    s.opts.dbMax - contractMax s mc ≤ mc ∧
    min s.opts.dbMax s.autoRangeTargetMax ≤ contractMax s mc := by
  rw [contractMax]
  split
  · rename_i hgt
    refine ⟨max_le (by linarith) (le_of_lt hgt), ?_, ?_⟩
    · have := le_max_left (s.opts.dbMax - mc) s.autoRangeTargetMax
      linarith
    · exact le_trans (min_le_right _ _) (le_max_right _ _)
  · exact ⟨le_refl _, by linarith, min_le_left _ _⟩

/-- C5: with auto-range enabled, one animation frame with elapsed time
`dtRaw >= 0` milliseconds moves `dbMin` upward by at most `dtRaw / 1000`
display units and `dbMax` downward by at most `dtRaw / 1000` display units,
and neither bound moves past its contraction target. -/
theorem animate_contraction_rate_limited (E : ℚ → ℚ) (s : MeterState) (dtRaw now : ℚ)
    (hA : s.opts.autoRange = true) (hdt : 0 ≤ dtRaw) :
    (s.opts.dbMin ≤ (animate E s dtRaw now).1.opts.dbMin ∧
      (animate E s dtRaw now).1.opts.dbMin - s.opts.dbMin ≤ dtRaw / 1000 ∧
      (animate E s dtRaw now).1.opts.dbMin ≤ max s.opts.dbMin s.autoRangeTargetMin) ∧
    ((animate E s dtRaw now).1.opts.dbMax ≤ s.opts.dbMax ∧
      s.opts.dbMax - (animate E s dtRaw now).1.opts.dbMax ≤ dtRaw / 1000 ∧
      min s.opts.dbMax s.autoRangeTargetMax ≤ (animate E s dtRaw now).1.opts.dbMax) := by
  have hdtc : 0 ≤ min dtRaw 100 := le_min hdt (by norm_num)
  have hle : min dtRaw 100 / 1000 ≤ dtRaw / 1000 := by
    have := min_le_left dtRaw 100
    linarith
  have hmin := contractMin_bounds s (min dtRaw 100 / 1000) (by positivity)
  have hmax := contractMax_bounds s (min dtRaw 100 / 1000) (by positivity)
  have hco := contractionPhase_opts s (min dtRaw 100) hA
  have ho := animate_state_opts E s dtRaw now
  constructor
  · refine ⟨?_, ?_, ?_⟩
    · rw [ho, hco.1]; exact hmin.1
    · rw [ho, hco.1]; linarith [hmin.2.1]
    · rw [ho, hco.1]; exact hmin.2.2
  · refine ⟨?_, ?_, ?_⟩
    · rw [ho, hco.2]; exact hmax.1
    · rw [ho, hco.2]; linarith [hmax.2.1]
    · rw [ho, hco.2]; exact hmax.2.2

theorem animate_contraction_rate_limited_witness :
    ((mkState autoOptions).opts.autoRange = true) ∧ ((0 : ℚ) ≤ 16) ∧
    (((mkState autoOptions).opts.dbMin ≤
        (animate (fun x => x) (mkState autoOptions) 16 0).1.opts.dbMin ∧
      (animate (fun x => x) (mkState autoOptions) 16 0).1.opts.dbMin -
        (mkState autoOptions).opts.dbMin ≤ 16 / 1000 ∧
      (animate (fun x => x) (mkState autoOptions) 16 0).1.opts.dbMin ≤
        max (mkState autoOptions).opts.dbMin (mkState autoOptions).autoRangeTargetMin) ∧
    ((animate (fun x => x) (mkState autoOptions) 16 0).1.opts.dbMax ≤
        (mkState autoOptions).opts.dbMax ∧
      (mkState autoOptions).opts.dbMax -
        (animate (fun x => x) (mkState autoOptions) 16 0).1.opts.dbMax ≤ 16 / 1000 ∧
      min (mkState autoOptions).opts.dbMax (mkState autoOptions).autoRangeTargetMax ≤
        (animate (fun x => x) (mkState autoOptions) 16 0).1.opts.dbMax)) :=
  ⟨rfl, by norm_num,
   animate_contraction_rate_limited (fun x => x) (mkState autoOptions) 16 0 rfl
     (by norm_num)⟩

/-- A meter with the peak needle enabled that has captured a peak at
`3` dB: the state reached from a fresh instance of the defaults with
`showPeak` after `setValue(3)` and one animation frame (the frame copies
`_targetDb = 3` into `_peakDb` and arms the hold timer). -/
def capturedPeakState : MeterState :=
  { mkState { defaultOptions with showPeak := true } with
    targetDb := 3, currentDb := 3, peakDb := 3, peakVisualDb := 3, peakHoldUntil := 2000 }

/-- C7 counterexample: `setRange(-20, 0)` on a meter holding a peak at `3`
leaves `_peakDb` and `_peakVisualDb` at `3`, outside the new bounds — the
peak tracker is not clamped by `setRange`, contrary to the claim. -/
theorem setRange_leaves_peak_unclamped :
    (setRange capturedPeakState (-20) 0).opts.dbMax = 0 ∧
    (setRange capturedPeakState (-20) 0).peakDb = 3 ∧
    (setRange capturedPeakState (-20) 0).peakVisualDb = 3 ∧
    ¬ ((3 : ℚ) ≤ 0) :=
  ⟨rfl, rfl, rfl, by norm_num⟩

/-- C7 amended: `setRange(min, max)` sets `dbMin` / `dbMax`, clamps the
target value and the current value into the new bounds, forces an immediate
scale rebuild, and leaves both the auto-range sample history and the peak
tracker's held and visual values unchanged (it does not clamp the peak
tracker). -/
theorem setRange_effects (s : MeterState) (a b : ℚ) :
    (setRange s a b).opts.dbMin = a ∧
    (setRange s a b).opts.dbMax = b ∧
    (setRange s a b).targetDb = max a (min b s.targetDb) ∧
    (setRange s a b).currentDb = max a (min b s.currentDb) ∧
    (setRange s a b).rebuildCount = s.rebuildCount + 1 ∧
    (setRange s a b).lastRebuiltDbMin = a ∧
    (setRange s a b).lastRebuiltDbMax = b ∧
    (setRange s a b).rangeSamples = s.rangeSamples ∧
    (setRange s a b).peakDb = s.peakDb ∧
    (setRange s a b).peakVisualDb = s.peakVisualDb :=
  ⟨rfl, rfl, rfl, rfl, rfl, rfl, rfl, rfl, rfl, rfl⟩

/-- C8 counterexample: `resetRange()` on a meter holding a peak at `3`
restores the bounds (`dbMin = -20`) but leaves `_peakDb` and
`_peakVisualDb` at `3` — the peak tracker is not reset by `resetRange`,
contrary to the claim. -/
theorem resetRange_leaves_peak :
    (resetRange capturedPeakState).opts.dbMin = -20 ∧
    (resetRange capturedPeakState).peakDb = 3 ∧
    (resetRange capturedPeakState).peakVisualDb = 3 ∧
    ((3 : ℚ) ≠ -20) :=
  ⟨rfl, rfl, rfl, by norm_num⟩

/-- C8 amended: the peak tracker's held and visual values equal
`displayMin` after construction and again right after a decay completes
(a decaying frame whose decayed visual value is within 0.05 of
`displayMin` resets held and visual to `displayMin`, clears `decaying` and
zeroes the hold deadline); an explicit `resetRange()` call, however, leaves
the peak tracker untouched. -/
theorem peak_resets_on_construction_and_decay_completion (o : Options) (E : ℚ → ℚ)
    (s sr : MeterState) (dt now : ℚ)
    (h1 : s.peakDecaying = true) (h2 : ¬ s.targetDb > s.peakDb)
    (h3 : decayedVisual E s dt ≤ s.opts.dbMin + 5 / 100) :
    ((mkState o).peakDb = o.dbMin ∧ (mkState o).peakVisualDb = o.dbMin ∧
      (mkState o).peakDecaying = false ∧ (mkState o).peakHoldUntil = 0) ∧
    ((peakStep E s dt now).peakDb = s.opts.dbMin ∧
      (peakStep E s dt now).peakVisualDb = s.opts.dbMin ∧
      (peakStep E s dt now).peakDecaying = false ∧
      (peakStep E s dt now).peakHoldUntil = 0) ∧
    ((resetRange sr).peakDb = sr.peakDb ∧
      (resetRange sr).peakVisualDb = sr.peakVisualDb ∧
      (resetRange sr).peakDecaying = sr.peakDecaying ∧
      (resetRange sr).peakHoldUntil = sr.peakHoldUntil) := by
  have hc : peakCapture s now = s := by rw [peakCapture, if_neg h2]
  have he : peakExpire s now = s := by
    rw [peakExpire, if_neg]
    intro hcond
    exact hcond.1 h1
  have hm : peakStep E s dt now =
      { s with peakDb := s.opts.dbMin, peakVisualDb := s.opts.dbMin,
               peakDecaying := false, peakHoldUntil := 0 } := by
    rw [peakStep, hc, he, peakMove, h1, if_pos rfl, if_pos h3]
  refine ⟨⟨rfl, rfl, rfl, rfl⟩, ?_, rfl, rfl, rfl, rfl⟩
  rw [hm]
  exact ⟨rfl, rfl, rfl, rfl⟩

/-- A meter state in mid-decay with the visual needle already at the
bottom, used to exercise the decay-completion reset. -/
def decayingPeakState : MeterState :=
  { mkState { defaultOptions with showPeak := true } with peakDecaying := true }

theorem peak_resets_on_construction_and_decay_completion_witness :
    (decayingPeakState.peakDecaying = true) ∧
    (¬ decayingPeakState.targetDb > decayingPeakState.peakDb) ∧
    (decayedVisual (fun _ => 1) decayingPeakState 16 ≤ decayingPeakState.opts.dbMin + 5 / 100) ∧
    (((mkState defaultOptions).peakDb = defaultOptions.dbMin ∧
      (mkState defaultOptions).peakVisualDb = defaultOptions.dbMin ∧
      (mkState defaultOptions).peakDecaying = false ∧
      (mkState defaultOptions).peakHoldUntil = 0) ∧
    ((peakStep (fun _ => 1) decayingPeakState 16 0).peakDb = decayingPeakState.opts.dbMin ∧
      (peakStep (fun _ => 1) decayingPeakState 16 0).peakVisualDb =
        decayingPeakState.opts.dbMin ∧
      (peakStep (fun _ => 1) decayingPeakState 16 0).peakDecaying = false ∧
      (peakStep (fun _ => 1) decayingPeakState 16 0).peakHoldUntil = 0) ∧
    ((resetRange (mkState defaultOptions)).peakDb = (mkState defaultOptions).peakDb ∧
      (resetRange (mkState defaultOptions)).peakVisualDb =
        (mkState defaultOptions).peakVisualDb ∧
      (resetRange (mkState defaultOptions)).peakDecaying =
        (mkState defaultOptions).peakDecaying ∧
      (resetRange (mkState defaultOptions)).peakHoldUntil =
        (mkState defaultOptions).peakHoldUntil)) :=
  ⟨rfl, by norm_num [decayingPeakState, mkState, defaultOptions],
   by norm_num [decayedVisual, decayingPeakState, mkState, defaultOptions],
   peak_resets_on_construction_and_decay_completion defaultOptions (fun _ => 1)
     decayingPeakState (mkState defaultOptions) 16 0 rfl
     (by norm_num [decayingPeakState, mkState, defaultOptions])
     (by norm_num [decayedVisual, decayingPeakState, mkState, defaultOptions])⟩

end VUMeter
